import Mathlib

/-!
Verification of the voice-translation backend (translator_backend/app.py).

The program is a four-stage pipeline (audio normalization, speech
recognition, translation, speech synthesis) orchestrated by a single
Flask endpoint.  All heavy lifting is delegated to remote services; the
embedding below models those remote calls as oracle functions supplied
as parameters, while the control flow, language-code lookup, error
classification and response construction are translated directly from
the source.
-/

namespace TranslatorBackend

/-- One entry of the `LANGUAGES` dict: a speech-recognition locale code
and a translation/synthesis ISO code. -/
structure LangEntry where
  speech : String
  trans : String
deriving DecidableEq, Repr

/-- The `LANGUAGES` dict of app.py (lines 16-23): a lookup from language
name to its code pair, `none` for keys not in the dict. -/
def LANGUAGES (name : String) : Option LangEntry :=
  if name = "Hindi" then some ⟨"hi-IN", "hi"⟩
  else if name = "Kannada" then some ⟨"kn-IN", "kn"⟩
  else if name = "Tamil" then some ⟨"ta-IN", "ta"⟩
  else if name = "Telugu" then some ⟨"te-IN", "te"⟩
  else if name = "Malayalam" then some ⟨"ml-IN", "ml"⟩
  else if name = "English" then some ⟨"en-US", "en"⟩
  else none

/-- `LANGUAGES.get(language_name, {}).get('speech', 'en-US')`
(app.py line 39). -/
def speech_code_of (name : String) : String :=
  ((LANGUAGES name).map LangEntry.speech).getD "en-US"

/-- `LANGUAGES.get(source_lang_name, {}).get('trans', 'auto')`
(app.py line 66). -/
def source_trans_code_of (name : String) : String :=
  ((LANGUAGES name).map LangEntry.trans).getD "auto"

/-- `LANGUAGES.get(target_lang_name, {}).get('trans', 'en')`
(app.py lines 67 and 85). -/
def target_trans_code_of (name : String) : String :=
  ((LANGUAGES name).map LangEntry.trans).getD "en"

/-- Outcome of the body of the `try` block of
`recognize_speech_from_file`: the remote recognition call (plus audio
loading) either yields text, or raises `sr.UnknownValueError`,
`sr.RequestError`, or some other exception whose `str` is `msg`. -/
inductive RecogOutcome where
  | success (text : String)
  | unknownValueError
  | requestError
  | otherError (msg : String)
deriving DecidableEq, Repr

/-- `recognize_speech_from_file(file_path, language_name)` (app.py lines
32-55).  `svc` is the oracle for the `try` block, applied to the
computed `lang_code`.  Returns the Python pair `(text, error)` with
`None` as `Option.none`. -/
def recognize_speech_from_file (svc : String → RecogOutcome)
    (language_name : String) : Option String × Option String :=
  let lang_code := speech_code_of language_name
  match svc lang_code with
  | .success text => (some text, none)
  | .unknownValueError => (none, some "Could not understand the audio.")
  | .requestError => (none, some "Could not request results from Speech service.")
  | .otherError e => (none, some e)

/-- Outcome of the remote translation call inside
`translate_text_content`: translated text, or an exception whose `str`
is `msg`. -/
inductive TransOutcome where
  | success (text : String)
  | failure (msg : String)
deriving DecidableEq, Repr

/-- `translate_text_content(text, source_lang_name, target_lang_name)`
(app.py lines 60-74).  `svc` is the oracle for
`GoogleTranslator(source, target).translate(text)`, applied to the two
resolved ISO codes and the text (which is `None` when recognition
succeeded with no text, hence `Option String`). -/
def translate_text_content (svc : String → String → Option String → TransOutcome)
    (text : Option String) (source_lang_name target_lang_name : String) : String :=
  let src_code := source_trans_code_of source_lang_name
  let tgt_code := target_trans_code_of target_lang_name
  match svc src_code tgt_code text with
  | .success translated_text => translated_text
  | .failure e => "Error: " ++ e

/-- Outcome of the remote synthesis call plus file save inside
`text_to_speech_file`: success, or an exception whose `str` is `msg`
(caught, printed, swallowed). -/
inductive TTSOutcome where
  | success
  | failure (msg : String)
deriving DecidableEq, Repr

/-- `text_to_speech_file(text, target_lang_name)` (app.py lines 79-98).
`svc` is the oracle for `gTTS(...)` plus `tts.save(...)`, applied to
the resolved ISO code and the text; `uuid` is the fresh value of
`uuid.uuid4()` stringified.  Returns the generated filename, or `None`
on any exception. -/
def text_to_speech_file (svc : String → String → TTSOutcome) (uuid : String)
    (text target_lang_name : String) : Option String :=
  let lang_code := target_trans_code_of target_lang_name
  match svc lang_code text with
  | .success => some (uuid ++ ".mp3")
  | .failure _ => none

/-- Python truthiness of an optional string: `None` and `""` are falsy,
everything else truthy.  Models `if error:` and
`if not output_audio_filename:` in the endpoint. -/
def pyTruthy : Option String → Bool
  | none => false
  | some s => decide (s ≠ "")

/-- Outcome of the normalization `try` block (app.py lines 121-126):
`AudioSegment.from_file` + `export` succeed, or raise an exception
whose `str` is `msg`. -/
inductive NormOutcome where
  | success
  | failure (msg : String)
deriving DecidableEq, Repr

/-- The environment of one request: the outcomes of the external
effects, each a function of the data actually passed to it by the
code. -/
structure Services where
  normalize : NormOutcome
  recog : String → RecogOutcome
  trans : String → String → Option String → TransOutcome
  tts : String → String → TTSOutcome
  uuid : String

/-- The parts of the multipart form the endpoint reads: presence of the
`audio` file field and the two optional form fields. -/
structure VoiceRequest where
  hasAudio : Bool
  source_lang : Option String
  target_lang : Option String

/-- A JSON response body: either `{"error": ...}` or the success object
with exactly the fields `original_text`, `translated_text`,
`audio_file` (app.py lines 151-155; `original_text` is `Option` since
`jsonify` serializes Python `None` as JSON null). -/
inductive ResponseBody where
  | errorBody (error : String)
  | result (original_text : Option String) (translated_text : String)
      (audio_file : String)
deriving DecidableEq, Repr

/-- An HTTP response: status code plus JSON body.  Flask's default
status for a bare `jsonify(...)` return is 200. -/
structure HttpResponse where
  status : Nat
  body : ResponseBody
deriving DecidableEq, Repr

/-- The pipeline stages the endpoint can execute, in source order:
`file.save`, the pydub conversion, and the three modules. -/
inductive Stage where
  | save
  | normalize
  | recognize
  | translate
  | synthesize
deriving DecidableEq, Repr

/-- `process_voice_translation()` (app.py lines 103-155), the
`/translate_voice` endpoint.  Returns the response together with the
list of pipeline stages that were executed (attempted), in order, so
that halting behaviour is stated directly. -/
def process_voice_translation (svc : Services) (req : VoiceRequest) :
    HttpResponse × List Stage :=
  if req.hasAudio = false then
    (⟨400, .errorBody "No audio file provided"⟩, [])
  else
    let source_lang := req.source_lang.getD "English"
    let target_lang := req.target_lang.getD "Hindi"
    match svc.normalize with
    | .failure e =>
        (⟨500, .errorBody ("Audio format error: " ++ e)⟩, [.save, .normalize])
    | .success =>
      let r := recognize_speech_from_file svc.recog source_lang
      let original_text := r.1
      let error := r.2
      if pyTruthy error then
        (⟨400, .errorBody (error.getD "")⟩, [.save, .normalize, .recognize])
      else
        let translated_text :=
          translate_text_content svc.trans original_text source_lang target_lang
        let output_audio_filename :=
          text_to_speech_file svc.tts svc.uuid translated_text target_lang
        if pyTruthy output_audio_filename = false then
          (⟨500, .errorBody "Failed to generate speech"⟩,
            [.save, .normalize, .recognize, .translate, .synthesize])
        else
          (⟨200, .result original_text translated_text
              (output_audio_filename.getD "")⟩,
            [.save, .normalize, .recognize, .translate, .synthesize])

/-- Appending ".mp3" is injective on strings. -/
theorem append_mp3_inj {a b : String} (h : a ++ ".mp3" = b ++ ".mp3") :
    a = b := by
  have hd : a.data ++ ".mp3".data = b.data ++ ".mp3".data := by
    have := congrArg String.data h
    simpa using this
  exact String.ext (List.append_left_injective ".mp3".data hd)

/-- A generated filename is never the empty string. -/
theorem append_mp3_ne_empty (a : String) : a ++ ".mp3" ≠ "" := by
  intro h
  have := congrArg String.length h
  simp [String.length_append] at this
  exact (by decide : ¬ (".mp3".length = 0)) this.2

/-- Python truthiness of a non-empty optional string. -/
theorem pyTruthy_some_of_ne {s : String} (h : s ≠ "") :
    pyTruthy (some s) = true :=
  decide_eq_true h

/-- Python truthiness of the empty optional string. -/
theorem pyTruthy_some_empty : pyTruthy (some "") = false := rfl

/-- The endpoint's stage trace is always one of four prefixes of the
full pipeline: nothing, up to normalization, up to recognition, or the
whole pipeline. -/
theorem trace_cases (svc : Services) (req : VoiceRequest) :
    (process_voice_translation svc req).2 = [] ∨
    (process_voice_translation svc req).2 = [.save, .normalize] ∨
    (process_voice_translation svc req).2 = [.save, .normalize, .recognize] ∨
    (process_voice_translation svc req).2 =
      [.save, .normalize, .recognize, .translate, .synthesize] := by
  unfold process_voice_translation
  split
  · exact Or.inl rfl
  · split
    · exact Or.inr (Or.inl rfl)
    · dsimp only
      split
      · exact Or.inr (Or.inr (Or.inl rfl))
      · split
        · exact Or.inr (Or.inr (Or.inr rfl))
        · exact Or.inr (Or.inr (Or.inr rfl))

/-- C1: every language name in the fixed table resolves to its
table-defined pair of codes (speech locale, translation ISO code); every
name outside the table resolves to the defaults — speech "en-US" in the
recognizer, "auto" as a source translation code, "en" as a target
translation/synthesis code — and the lookups are total functions, so
they never fail or raise. -/
theorem C1_language_lookup (name : String) :
    (speech_code_of name, source_trans_code_of name, target_trans_code_of name) =
      (if name = "Hindi" then ("hi-IN", "hi", "hi")
       else if name = "Kannada" then ("kn-IN", "kn", "kn")
       else if name = "Tamil" then ("ta-IN", "ta", "ta")
       else if name = "Telugu" then ("te-IN", "te", "te")
       else if name = "Malayalam" then ("ml-IN", "ml", "ml")
       else if name = "English" then ("en-US", "en", "en")
       else ("en-US", "auto", "en")) := by
  unfold speech_code_of source_trans_code_of target_trans_code_of LANGUAGES
  split_ifs <;> rfl

/-- C4: a request without the `audio` file field gets a 400 response
with an error body, whatever the other form fields and whatever the
external services would do (the result is independent of `svc`), and no
pipeline stage runs (the stage trace is empty). -/
theorem C4_missing_audio_rejected (svc : Services) (req : VoiceRequest)
    (h : req.hasAudio = false) :
    process_voice_translation svc req =
      (⟨400, .errorBody "No audio file provided"⟩, []) := by
  simp [process_voice_translation, h]

/-- Witness for C4 at a concrete request carrying other form fields. -/
theorem C4_missing_audio_rejected_witness :
    process_voice_translation
      ⟨.success, fun _ => .success "x", fun _ _ _ => .success "y",
        fun _ _ => .success, "u"⟩
      ⟨false, some "Tamil", some "Telugu"⟩ =
      (⟨400, .errorBody "No audio file provided"⟩, []) :=
  C4_missing_audio_rejected _ _ rfl

/-- C5: when the pydub decode/export step fails, the response is 500
with an error message of the form "Audio format error: <msg>" carrying
the underlying failure message, and the pipeline stops there:
recognition, translation and synthesis never run. -/
theorem C5_decode_failure_halts (svc : Services) (req : VoiceRequest)
    (e : String) (haud : req.hasAudio = true)
    (hnorm : svc.normalize = .failure e) :
    process_voice_translation svc req =
      (⟨500, .errorBody ("Audio format error: " ++ e)⟩,
        [.save, .normalize]) := by
  simp [process_voice_translation, haud, hnorm]

/-- Witness for C5 at a concrete corrupt upload. -/
theorem C5_decode_failure_halts_witness :
    process_voice_translation
      ⟨.failure "Decoding failed", fun _ => .success "x",
        fun _ _ _ => .success "y", fun _ _ => .success, "u"⟩
      ⟨true, none, none⟩ =
      (⟨500, .errorBody ("Audio format error: " ++ "Decoding failed")⟩,
        [.save, .normalize]) :=
  C5_decode_failure_halts _ _ "Decoding failed" rfl rfl

/-- C7: when every stage succeeds, the response is 200 with a body
holding exactly the recognizer's transcription, the translator's
output, and the synthesizer's generated filename; the language names
used are `source_lang` defaulted to "English" and `target_lang`
defaulted to "Hindi" when the form fields are absent (the hypotheses
are stated at exactly those defaulted names). -/
theorem C7_success_response (svc : Services) (req : VoiceRequest)
    (t tr : String)
    (haud : req.hasAudio = true)
    (hnorm : svc.normalize = .success)
    (hrec : svc.recog (speech_code_of (req.source_lang.getD "English")) =
      .success t)
    (htr : svc.trans (source_trans_code_of (req.source_lang.getD "English"))
      (target_trans_code_of (req.target_lang.getD "Hindi")) (some t) =
      .success tr)
    (htts : svc.tts (target_trans_code_of (req.target_lang.getD "Hindi")) tr =
      .success) :
    process_voice_translation svc req =
      (⟨200, .result (some t) tr (svc.uuid ++ ".mp3")⟩,
        [.save, .normalize, .recognize, .translate, .synthesize]) := by
  simp [process_voice_translation, recognize_speech_from_file,
    translate_text_content, text_to_speech_file, haud, hnorm, hrec, htr,
    htts, pyTruthy, append_mp3_ne_empty svc.uuid]

/-- Witness for C7: a concrete all-success request with absent form
fields, answered with the English→Hindi defaults. -/
theorem C7_success_response_witness :
    process_voice_translation
      ⟨.success, fun _ => .success "hello", fun _ _ _ => .success "namaste",
        fun _ _ => .success, "u"⟩
      ⟨true, none, none⟩ =
      (⟨200, .result (some "hello") "namaste" ("u" ++ ".mp3")⟩,
        [.save, .normalize, .recognize, .translate, .synthesize]) :=
  C7_success_response _ _ "hello" "namaste" rfl rfl rfl rfl rfl

/-- C6: `text_to_speech_file` returns `some (uuid ++ ".mp3")` when the
synthesis call succeeds and `none` on any caught exception; and when
the orchestrator gets `none` back, it answers 500 with the generic
message "Failed to generate speech", not the original exception
detail. -/
theorem C6_tts_failure_generic_500 (svc : Services) (req : VoiceRequest)
    (t tr e : String)
    (haud : req.hasAudio = true)
    (hnorm : svc.normalize = .success)
    (hrec : svc.recog (speech_code_of (req.source_lang.getD "English")) =
      .success t)
    (htr : svc.trans (source_trans_code_of (req.source_lang.getD "English"))
      (target_trans_code_of (req.target_lang.getD "Hindi")) (some t) =
      .success tr)
    (htts : svc.tts (target_trans_code_of (req.target_lang.getD "Hindi")) tr =
      .failure e) :
    (∀ (f : String → String → TTSOutcome) (u text lang : String),
        f (target_trans_code_of lang) text = .success →
        text_to_speech_file f u text lang = some (u ++ ".mp3")) ∧
    (∀ (f : String → String → TTSOutcome) (u text lang m : String),
        f (target_trans_code_of lang) text = .failure m →
        text_to_speech_file f u text lang = none) ∧
    process_voice_translation svc req =
      (⟨500, .errorBody "Failed to generate speech"⟩,
        [.save, .normalize, .recognize, .translate, .synthesize]) := by
  refine ⟨?_, ?_, ?_⟩
  · intro f u text lang h
    simp [text_to_speech_file, h]
  · intro f u text lang m h
    simp [text_to_speech_file, h]
  · simp [process_voice_translation, recognize_speech_from_file,
      translate_text_content, text_to_speech_file, haud, hnorm, hrec, htr,
      htts, pyTruthy]

/-- Witness for C6: a concrete request whose synthesis stage raises;
the response is the generic 500. -/
theorem C6_tts_failure_generic_500_witness :
    process_voice_translation
      ⟨.success, fun _ => .success "hello", fun _ _ _ => .success "namaste",
        fun _ _ => .failure "gTTS connection reset", "u"⟩
      ⟨true, none, none⟩ =
      (⟨500, .errorBody "Failed to generate speech"⟩,
        [.save, .normalize, .recognize, .translate, .synthesize]) :=
  (C6_tts_failure_generic_500 _ _ "hello" "namaste" "gTTS connection reset"
    rfl rfl rfl rfl rfl).2.2

/-- C2: every exception raised by the translation call turns into the
return value "Error: <message>" instead of propagating; every run that
reaches the translation stage also reaches the synthesis stage; and a
run whose translation fails but whose other stages succeed ends in a
200 response whose translated_text begins with "Error:". -/
theorem C2_translation_soft_failure :
    (∀ (f : String → String → Option String → TransOutcome)
        (text : Option String) (s tg e : String),
        f (source_trans_code_of s) (target_trans_code_of tg) text =
          .failure e →
        translate_text_content f text s tg = "Error: " ++ e) ∧
    (∀ (svc : Services) (req : VoiceRequest),
        Stage.translate ∈ (process_voice_translation svc req).2 →
        Stage.synthesize ∈ (process_voice_translation svc req).2) ∧
    (∀ (svc : Services) (req : VoiceRequest) (t e : String),
        req.hasAudio = true →
        svc.normalize = .success →
        svc.recog (speech_code_of (req.source_lang.getD "English")) =
          .success t →
        svc.trans (source_trans_code_of (req.source_lang.getD "English"))
          (target_trans_code_of (req.target_lang.getD "Hindi")) (some t) =
          .failure e →
        svc.tts (target_trans_code_of (req.target_lang.getD "Hindi"))
          ("Error: " ++ e) = .success →
        process_voice_translation svc req =
          (⟨200, .result (some t) ("Error: " ++ e) (svc.uuid ++ ".mp3")⟩,
            [.save, .normalize, .recognize, .translate, .synthesize])) := by
  refine ⟨?_, ?_, ?_⟩
  · intro f text s tg e h
    simp [translate_text_content, h]
  · intro svc req h
    rcases trace_cases svc req with h1 | h1 | h1 | h1 <;> rw [h1] at h ⊢ <;>
      first
        | exact absurd h (by decide)
        | decide
  · intro svc req t e haud hnorm hrec htr htts
    simp [process_voice_translation, recognize_speech_from_file,
      translate_text_content, text_to_speech_file, haud, hnorm, hrec, htr,
      htts, pyTruthy, append_mp3_ne_empty svc.uuid]

/-- C9: a recognition exception whose `str` is the empty string makes
the recognizer return the error value `""`, which the orchestrator's
truthiness test treats as success: the pipeline continues and the 200
response carries `original_text` null; the halt-on-error policy does
hold for every non-empty error message. -/
theorem C9_empty_error_not_halting (svc : Services) (req : VoiceRequest)
    (tr : String)
    (haud : req.hasAudio = true)
    (hnorm : svc.normalize = .success)
    (hrec : svc.recog (speech_code_of (req.source_lang.getD "English")) =
      .otherError "")
    (htr : svc.trans (source_trans_code_of (req.source_lang.getD "English"))
      (target_trans_code_of (req.target_lang.getD "Hindi")) none =
      .success tr)
    (htts : svc.tts (target_trans_code_of (req.target_lang.getD "Hindi")) tr =
      .success) :
    (recognize_speech_from_file svc.recog (req.source_lang.getD "English")).2 =
        some "" ∧
    process_voice_translation svc req =
      (⟨200, .result none tr (svc.uuid ++ ".mp3")⟩,
        [.save, .normalize, .recognize, .translate, .synthesize]) ∧
    (∀ (s : Services) (r : VoiceRequest) (e : String),
        r.hasAudio = true →
        s.normalize = .success →
        (recognize_speech_from_file s.recog (r.source_lang.getD "English")).2 =
          some e →
        e ≠ "" →
        process_voice_translation s r =
          (⟨400, .errorBody e⟩, [.save, .normalize, .recognize])) := by
  refine ⟨?_, ?_, ?_⟩
  · simp [recognize_speech_from_file, hrec]
  · simp [process_voice_translation, recognize_speech_from_file,
      translate_text_content, text_to_speech_file, haud, hnorm, hrec, htr,
      htts, pyTruthy, append_mp3_ne_empty svc.uuid]
  · intro s r e h1 h2 h3 h4
    simp [process_voice_translation, h1, h2, h3, pyTruthy_some_of_ne h4]

/-- Witness for C9: a concrete request whose recognition raises an
exception stringifying to "", with all later stages succeeding. -/
theorem C9_empty_error_not_halting_witness :
    (recognize_speech_from_file (fun _ => RecogOutcome.otherError "")
        ((none : Option String).getD "English")).2 = some "" ∧
    process_voice_translation
      ⟨.success, fun _ => .otherError "", fun _ _ _ => .success "namaste",
        fun _ _ => .success, "u"⟩
      ⟨true, none, none⟩ =
      (⟨200, .result none "namaste" ("u" ++ ".mp3")⟩,
        [.save, .normalize, .recognize, .translate, .synthesize]) :=
  ⟨(C9_empty_error_not_halting
      ⟨.success, fun _ => .otherError "", fun _ _ _ => .success "namaste",
        fun _ _ => .success, "u"⟩
      ⟨true, none, none⟩ "namaste" rfl rfl rfl rfl rfl).1,
   (C9_empty_error_not_halting
      ⟨.success, fun _ => .otherError "", fun _ _ _ => .success "namaste",
        fun _ _ => .success, "u"⟩
      ⟨true, none, none⟩ "namaste" rfl rfl rfl rfl rfl).2.1⟩

/-- C3 counterexample: the claim "whenever the recognizer returns any
error, the orchestrator responds 400 and the pipeline halts" fails when
the caught exception stringifies to the empty string: here the
recognizer returns the error value `""`, yet the response is 200 and
translation and synthesis both run. -/
theorem C3_halt_on_any_error_counterexample :
    (recognize_speech_from_file (fun _ => RecogOutcome.otherError "")
        "English").2 = some "" ∧
    (process_voice_translation
        ⟨.success, fun _ => .otherError "", fun _ _ _ => .success "T",
          fun _ _ => .success, "u"⟩
        ⟨true, some "English", some "Hindi"⟩).1.status = 200 ∧
    (process_voice_translation
        ⟨.success, fun _ => .otherError "", fun _ _ _ => .success "T",
          fun _ _ => .success, "u"⟩
        ⟨true, some "English", some "Hindi"⟩).1.status ≠ 400 ∧
    (process_voice_translation
        ⟨.success, fun _ => .otherError "", fun _ _ _ => .success "T",
          fun _ _ => .success, "u"⟩
        ⟨true, some "English", some "Hindi"⟩).2 =
      [.save, .normalize, .recognize, .translate, .synthesize] :=
  ⟨rfl, rfl, by decide, rfl⟩

/-- C3 (amended): every recognition failure is classified into exactly
one of three messages — `sr.UnknownValueError` into "Could not
understand the audio.", `sr.RequestError` into "Could not request
results from Speech service.", any other exception into its own
stringification — and whenever the recognizer returns a NON-EMPTY error
message the orchestrator responds 400 carrying that message and the
pipeline halts before translation and synthesis. -/
theorem C3_recognition_errors (svc : Services) (req : VoiceRequest)
    (e : String)
    (haud : req.hasAudio = true)
    (hnorm : svc.normalize = .success)
    (herr : (recognize_speech_from_file svc.recog
      (req.source_lang.getD "English")).2 = some e)
    (hne : e ≠ "") :
    (∀ (f : String → RecogOutcome) (name : String),
        (recognize_speech_from_file f name).2 = none ∨
        ((recognize_speech_from_file f name).2 =
            some "Could not understand the audio." ∧
          f (speech_code_of name) = .unknownValueError) ∨
        ((recognize_speech_from_file f name).2 =
            some "Could not request results from Speech service." ∧
          f (speech_code_of name) = .requestError) ∨
        (∃ m, (recognize_speech_from_file f name).2 = some m ∧
          f (speech_code_of name) = .otherError m)) ∧
    process_voice_translation svc req =
      (⟨400, .errorBody e⟩, [.save, .normalize, .recognize]) := by
  constructor
  · intro f name
    cases h : f (speech_code_of name) with
    | success t => exact Or.inl (by simp [recognize_speech_from_file, h])
    | unknownValueError =>
        exact Or.inr (Or.inl ⟨by simp [recognize_speech_from_file, h], rfl⟩)
    | requestError =>
        exact Or.inr (Or.inr (Or.inl
          ⟨by simp [recognize_speech_from_file, h], rfl⟩))
    | otherError m =>
        exact Or.inr (Or.inr (Or.inr
          ⟨m, by simp [recognize_speech_from_file, h], rfl⟩))
  · simp [process_voice_translation, haud, hnorm, herr,
      pyTruthy_some_of_ne hne]

/-- Witness for the amended C3: a concrete unintelligible-audio request
answered 400 with the fixed message and a halted pipeline. -/
theorem C3_recognition_errors_witness :
    process_voice_translation
      ⟨.success, fun _ => .unknownValueError, fun _ _ _ => .success "T",
        fun _ _ => .success, "u"⟩
      ⟨true, some "Kannada", some "Tamil"⟩ =
      (⟨400, .errorBody "Could not understand the audio."⟩,
        [.save, .normalize, .recognize]) :=
  (C3_recognition_errors
    ⟨.success, fun _ => .unknownValueError, fun _ _ _ => .success "T",
      fun _ _ => .success, "u"⟩
    ⟨true, some "Kannada", some "Tamil"⟩
    "Could not understand the audio." rfl rfl rfl (by decide)).2

/-- C8: rerunning an identical successful request with a fresh UUID
yields the same `original_text` and `translated_text` but a distinct
`audio_file`: the two responses differ exactly in the generated
filename. -/
theorem C8_repeat_request (svc : Services) (req : VoiceRequest)
    (t tr u1 u2 : String) (hu : u1 ≠ u2)
    (haud : req.hasAudio = true)
    (hnorm : svc.normalize = .success)
    (hrec : svc.recog (speech_code_of (req.source_lang.getD "English")) =
      .success t)
    (htr : svc.trans (source_trans_code_of (req.source_lang.getD "English"))
      (target_trans_code_of (req.target_lang.getD "Hindi")) (some t) =
      .success tr)
    (htts : svc.tts (target_trans_code_of (req.target_lang.getD "Hindi")) tr =
      .success) :
    process_voice_translation { svc with uuid := u1 } req =
      (⟨200, .result (some t) tr (u1 ++ ".mp3")⟩,
        [.save, .normalize, .recognize, .translate, .synthesize]) ∧
    process_voice_translation { svc with uuid := u2 } req =
      (⟨200, .result (some t) tr (u2 ++ ".mp3")⟩,
        [.save, .normalize, .recognize, .translate, .synthesize]) ∧
    u1 ++ ".mp3" ≠ u2 ++ ".mp3" := by
  refine ⟨?_, ?_, fun h => hu (append_mp3_inj h)⟩ <;>
    simp [process_voice_translation, recognize_speech_from_file,
      translate_text_content, text_to_speech_file, haud, hnorm, hrec, htr,
      htts, pyTruthy, append_mp3_ne_empty u1, append_mp3_ne_empty u2]

/-- Witness for C8: the same concrete request run under two different
fresh UUIDs. -/
theorem C8_repeat_request_witness :
    process_voice_translation
      { (⟨.success, fun _ => .success "hello",
          fun _ _ _ => .success "namaste", fun _ _ => .success, "z"⟩ :
          Services) with uuid := "a" }
      ⟨true, none, none⟩ =
      (⟨200, .result (some "hello") "namaste" ("a" ++ ".mp3")⟩,
        [.save, .normalize, .recognize, .translate, .synthesize]) ∧
    process_voice_translation
      { (⟨.success, fun _ => .success "hello",
          fun _ _ _ => .success "namaste", fun _ _ => .success, "z"⟩ :
          Services) with uuid := "b" }
      ⟨true, none, none⟩ =
      (⟨200, .result (some "hello") "namaste" ("b" ++ ".mp3")⟩,
        [.save, .normalize, .recognize, .translate, .synthesize]) ∧
    "a" ++ ".mp3" ≠ "b" ++ ".mp3" :=
  C8_repeat_request
    ⟨.success, fun _ => .success "hello", fun _ _ _ => .success "namaste",
      fun _ _ => .success, "z"⟩
    ⟨true, none, none⟩ "hello" "namaste" "a" "b" (by decide)
    rfl rfl rfl rfl rfl

/-- C10: `text_to_speech_file` returns either `none` or the generated
`<uuid>.mp3` name; a returned filename is never the empty string, so
the orchestrator's falsy test on the result is false exactly on the
failure case. -/
theorem C10_tts_result_shape (f : String → String → TTSOutcome)
    (u text lang : String) :
    (text_to_speech_file f u text lang = none ∨
      text_to_speech_file f u text lang = some (u ++ ".mp3")) ∧
    (∀ s, text_to_speech_file f u text lang = some s → s ≠ "") ∧
    (pyTruthy (text_to_speech_file f u text lang) = false ↔
      text_to_speech_file f u text lang = none) := by
  cases h : f (target_trans_code_of lang) text with
  | success =>
      have hv : text_to_speech_file f u text lang = some (u ++ ".mp3") := by
        simp [text_to_speech_file, h]
      refine ⟨Or.inr hv, ?_, ?_⟩
      · intro s hs
        rw [hv] at hs
        obtain rfl := Option.some.inj hs
        exact append_mp3_ne_empty u
      · rw [hv]
        simp [pyTruthy_some_of_ne (append_mp3_ne_empty u)]
  | failure m =>
      have hv : text_to_speech_file f u text lang = none := by
        simp [text_to_speech_file, h]
      refine ⟨Or.inl hv, ?_, ?_⟩
      · intro s hs
        rw [hv] at hs
        exact absurd hs (by simp)
      · rw [hv]
        simp [pyTruthy]

end TranslatorBackend
